import Mathlib

/-!
Verification of the transaction submission / confirmation / attestation retry
logic of the kana-swap-api-examples repository, as a shallow embedding.

Each definition is translated from one source function:
  * `SwapSolanaKit.*`  — `sendAndConfirmTransaction`, src/same-chain/solana/swapSolanaKit.ts
  * `EvmSolana.*`      — `sendSolanaTransaction` and `CHAIN_TO_CCTP_ID`, src/cross-chain/evm-solana.ts
  * `Part003.*`        — the `sendSolanaTransaction` variant with the sparser resend schedule
  * `SolanaEvm.*`      — the unbounded `waitForAttestation` loop, src/cross-chain/solana-evm.ts
  * `Part006.*`        — the bounded `fetchAttestation` poller
  * `Part014.*`        — `callClaimWithRetry`
  * `AptosEvm.*`       — `CHAIN_TO_CCTP_ID`, src/cross-chain/aptos-evm.ts

Network effects are modelled by oracles: a function from the attempt / poll
index to the outcome the external service produced for that call.  Unbounded
`while` loops take an explicit fuel argument; exhausting the fuel yields the
"still looping" value `none` (for loops the source can exit only by returning)
or the source's own post-loop behaviour (for bounded loops).
-/

deriving instance DecidableEq for Except

/-- Whether `pat` occurs as a contiguous sublist of the second argument. -/
def listInfix (pat : List Char) : List Char → Bool
  | [] => pat.isEmpty
  | c :: cs => pat.isPrefixOf (c :: cs) || listInfix pat cs

/-- JavaScript `err.message.includes(pat)` on strings. -/
def strIncludes (s pat : String) : Bool := listInfix pat.data s.data

/-- One entry of the `getSignatureStatuses` / `getSignatureStatus` response
(`confirmationStatus`, `err`, `slot`); the whole entry may be `null`, which is
modelled by wrapping in `Option` at use sites. -/
structure SigStatus where
  confirmationStatus : Option String
  err : Option String
  slot : Option Nat
deriving DecidableEq

/-- `status?.confirmationStatus === "confirmed" || status?.confirmationStatus === "finalized"`. -/
def isConfirmedStr (c : Option String) : Bool :=
  c == some "confirmed" || c == some "finalized"

/-- The confirmed/finalized test applied through the possibly-null status entry. -/
def isConfirmedOpt (st : Option SigStatus) : Bool :=
  match st with
  | none => false
  | some s => isConfirmedStr s.confirmationStatus

/-- The chain enum of src/constant.ts (`NetworkId`), with its numeric values. -/
inductive NetworkId
  | solana | aptos | polygon | bsc | sui | ethereum | base | zkSync | Avalanche | Arbitrum
deriving DecidableEq

/-- The numeric value each enum member carries in src/constant.ts. -/
def NetworkId.toNat : NetworkId → Nat
  | .solana => 1
  | .aptos => 2
  | .polygon => 3
  | .bsc => 4
  | .sui => 5
  | .ethereum => 6
  | .base => 7
  | .zkSync => 9
  | .Avalanche => 10
  | .Arbitrum => 11

/-- One message of a Circle attestation-service response: `{message, attestation}`. -/
structure CircleMessage where
  message : String
  attestation : String
deriving DecidableEq

/-- A parsed attestation-service response body; `json?.messages?.[0]` is `messages.head?`. -/
structure CircleResponse where
  messages : List CircleMessage
deriving DecidableEq

/-- The pair the attestation pollers return: `{messageBytes, attestationSignature}`. -/
structure Attestation where
  messageBytes : String
  attestationSignature : String
deriving DecidableEq

/-- A response on which the poll loop keeps waiting: no first message, or its
`attestation` field is the string `"PENDING"`. -/
def respPending (r : CircleResponse) : Bool :=
  match r.messages.head? with
  | none => true
  | some m => m.attestation == "PENDING"

namespace SwapSolanaKit

/-- Classification of one poll of the confirmation loop of
`sendAndConfirmTransaction` (swapSolanaKit.ts), following the source's check
order: confirmed/finalized first, then `status?.err`, then
`status?.slot && BigInt(status.slot) > lastValidBlockHeight`. -/
inductive PollClass
  | confirmedC
  | failedC (e : String)
  | expiredC
  | continueC
deriving DecidableEq

/-- The body of one iteration of the status-poll loop, deciding whether the
loop breaks (confirmed), throws (`err` present, or slot past the
last-valid-block-height), or sleeps and polls again. -/
def pollClass (lastValidBlockHeight : Nat) (st : Option SigStatus) : PollClass :=
  match st with
  | none => .continueC
  | some s =>
    if isConfirmedStr s.confirmationStatus then .confirmedC
    else
      match s.err with
      | some e => .failedC e
      | none =>
        match s.slot with
        | some slot =>
          if slot ≠ 0 ∧ slot > lastValidBlockHeight then .expiredC else .continueC
        | none => .continueC

/-- Terminal outcome of `sendAndConfirmTransaction`: the returned signature,
the `Transaction failed` throw, or the `Transaction expired` throw. -/
inductive SwapOutcome
  | confirmed (signature : String)
  | txFailed (e : String)
  | expired
deriving DecidableEq

/-- The `while (true)` status-poll loop of `sendAndConfirmTransaction`, with
fuel; `statuses k` is the entry `value[0]` of the k-th `getSignatureStatuses`
call, and `none` as a result means the fuel ran out with the loop still
polling. -/
def confirmLoopGo (statuses : Nat → Option SigStatus) (lastValidBlockHeight : Nat)
    (signature : String) : Nat → Nat → Option SwapOutcome
  | _, 0 => none
  | poll, fuel+1 =>
    match pollClass lastValidBlockHeight (statuses poll) with
    | .confirmedC => some (.confirmed signature)
    | .failedC e => some (.txFailed e)
    | .expiredC => some .expired
    | .continueC => confirmLoopGo statuses lastValidBlockHeight signature (poll+1) fuel

/-- Events observable from outside `sendAndConfirmTransaction`: a broadcast of
the serialized bytes (first send or a resend), and the return of the call. -/
inductive Ev
  | broadcast
  | ret
deriving DecidableEq

/-- State of the background resender coroutine: at the top-of-loop abort
check, inside the 2-second sleep (after which it broadcasts), or returned. -/
inductive RTask
  | idle
  | sleeping
  | done
deriving DecidableEq

/-- State of the foreground task: polling statuses, awaiting the resender
promise after `abortController.abort()`, or returned/thrown with an outcome. -/
inductive MTask
  | polling (k : Nat)
  | joining (o : SwapOutcome)
  | finished (o : SwapOutcome)
deriving DecidableEq

/-- Combined state of `sendAndConfirmTransaction` after the first broadcast
succeeded: the two coroutines, the abort flag, and the event trace so far. -/
structure SysState where
  main : MTask
  res : RTask
  aborted : Bool
  trace : List Ev
deriving DecidableEq

/-- One step of the foreground task.  On a terminal poll it breaks (or enters
the catch), calls `abortController.abort()` and starts awaiting
`resendPromise`; it can emit `ret` only once the resender has returned. -/
def stepMain (statuses : Nat → Option SigStatus) (lastValidBlockHeight : Nat)
    (signature : String) (st : SysState) : SysState :=
  match st.main with
  | .polling k =>
    match pollClass lastValidBlockHeight (statuses k) with
    | .continueC => { st with main := .polling (k+1) }
    | .confirmedC => { st with main := .joining (.confirmed signature), aborted := true }
    | .failedC e => { st with main := .joining (.txFailed e), aborted := true }
    | .expiredC => { st with main := .joining .expired, aborted := true }
  | .joining o =>
    if st.res = .done then { st with main := .finished o, trace := st.trace ++ [.ret] } else st
  | .finished _ => st

/-- One step of the background resender: `while (!aborted) { await sleep(2s);
try { sendTransaction } catch {} }` — the abort flag is checked at the top of
each iteration, and a broadcast already past the check still happens. -/
def stepRes (st : SysState) : SysState :=
  match st.res with
  | .idle => if st.aborted then { st with res := .done } else { st with res := .sleeping }
  | .sleeping => { st with res := .idle, trace := st.trace ++ [.broadcast] }
  | .done => st

/-- Interleaved execution under a schedule: `true` steps the foreground task,
`false` the resender. -/
def run (statuses : Nat → Option SigStatus) (lastValidBlockHeight : Nat)
    (signature : String) : List Bool → SysState → SysState
  | [], st => st
  | c :: cs, st =>
    run statuses lastValidBlockHeight signature cs
      (if c then stepMain statuses lastValidBlockHeight signature st else stepRes st)

/-- The state right after the first broadcast succeeded and returned
`signature`: about to poll, resender just started, one broadcast on record. -/
def init : SysState := ⟨.polling 0, .idle, false, [.broadcast]⟩

end SwapSolanaKit

/-- What the external calls of one iteration of a `sendSolanaTransaction`
retry loop produced, indexed by the (1-based) attempt number:
`getSignatureStatus` (a thrown message, or the possibly-null status entry),
`sendRawTransaction` (a thrown message, or the returned signature), and the
`Promise.race` of `confirmTransaction` against the status-check timeout. -/
structure AttemptEnv where
  statusResult : Except String (Option SigStatus)
  sendResult : Except String String
  confirmResult : Except String Unit
deriving DecidableEq

namespace EvmSolana

/-- Terminal failures of `sendSolanaTransaction` (evm-solana.ts): the
`Slippage Error` throw, the `Insufficient Funds` throw, and the final
`Failed to send transaction after N attempts` throw when the attempt budget
runs out. -/
inductive SendError
  | slippage
  | insufficientFunds
  | attemptsExhausted
deriving DecidableEq

/-- `MAX_ATTEMPTS` in evm-solana.ts. -/
def MAX_ATTEMPTS : Nat := 5

/-- The `while (attempt < MAX_ATTEMPTS)` loop of `sendSolanaTransaction`
(evm-solana.ts), structurally recursive on the remaining attempts.  Arguments:
the oracle, the attempts already made, the currently held signature, the
broadcast calls issued so far; the result pairs the function's outcome with
the total number of `sendRawTransaction` calls issued. -/
def sendLoopGo (env : Nat → AttemptEnv) :
    Nat → Option String → Nat → Nat → Except SendError String × Nat
  | _, _, bc, 0 => (.error .attemptsExhausted, bc)
  | a, sig, bc, rem+1 =>
    let e := env (a+1)
    match sig with
    | some s =>
      match e.statusResult with
      | .error msg =>
        -- outer catch
        if strIncludes msg "0x1771" then (.error .slippage, bc)
        else if strIncludes msg "0x1" && decide (a+1 > 2) then (.error .insufficientFunds, bc)
        else sendLoopGo env (a+1) none bc rem
      | .ok st =>
        if isConfirmedOpt st then (.ok s, bc)
        else
          -- `!signature` is false here, so the send branch runs iff attempt > 1
          if a+1 > 1 then
            match e.sendResult with
            | .error msg =>
              if strIncludes msg "0x1771" then (.error .slippage, bc+1)
              else if strIncludes msg "0x1" && decide (a+1 > 2) then (.error .insufficientFunds, bc+1)
              else sendLoopGo env (a+1) none (bc+1) rem
            | .ok s2 =>
              match e.confirmResult with
              | .ok _ => (.ok s2, bc+1)
              | .error _ => sendLoopGo env (a+1) (some s2) (bc+1) rem
          else sendLoopGo env (a+1) (some s) bc rem
    | none =>
      match e.sendResult with
      | .error msg =>
        if strIncludes msg "0x1771" then (.error .slippage, bc+1)
        else if strIncludes msg "0x1" && decide (a+1 > 2) then (.error .insufficientFunds, bc+1)
        else sendLoopGo env (a+1) none (bc+1) rem
      | .ok s2 =>
        match e.confirmResult with
        | .ok _ => (.ok s2, bc+1)
        | .error _ => sendLoopGo env (a+1) (some s2) (bc+1) rem

/-- `sendSolanaTransaction` (evm-solana.ts) with the attempt budget as a
parameter; the source instantiates it at `MAX_ATTEMPTS = 5`. -/
def sendSolanaTransaction (env : Nat → AttemptEnv) (maxAttempts : Nat := MAX_ATTEMPTS) :
    Except SendError String × Nat :=
  sendLoopGo env 0 none 0 maxAttempts

/-- `CHAIN_TO_CCTP_ID` of evm-solana.ts (also the copy in solana-evm.ts);
JavaScript object lookup of a missing key yields `undefined`, i.e. `none`. -/
def CHAIN_TO_CCTP_ID : NetworkId → Option Nat
  | .ethereum => some 0
  | .Avalanche => some 1
  | .Arbitrum => some 3
  | .solana => some 5
  | .base => some 6
  | .polygon => some 7
  | .aptos => some 9
  | _ => none

end EvmSolana

namespace AptosEvm

/-- `CHAIN_TO_CCTP_ID` of aptos-evm.ts (also `KANA_CHAIN_TO_CCTP_DOMAIN` of
part_006): the evm-solana copy plus an entry for `sui`. -/
def CHAIN_TO_CCTP_ID : NetworkId → Option Nat
  | .ethereum => some 0
  | .Avalanche => some 1
  | .Arbitrum => some 3
  | .solana => some 5
  | .base => some 6
  | .polygon => some 7
  | .sui => some 8
  | .aptos => some 9
  | _ => none

end AptosEvm

namespace Part003

/-- Terminal failures of the `sendSolanaTransaction` variant in part_003: the
slippage throw, the re-raised `lastError`, and the fallback
`Failed to send transaction after N attempts` error. -/
inductive P3Error
  | slippage
  | lastErr (msg : String)
  | exhausted
deriving DecidableEq

/-- The re-broadcast schedule of part_003:
`!signature || (attempt > 3 && (attempt - 4) % 3 === 0)`, second disjunct. -/
def broadcastDue (a : Nat) : Bool :=
  decide (a > 3) && decide ((a - 4) % 3 = 0)

/-- The retry loop of part_003's `sendSolanaTransaction`.  Differences from
the evm-solana copy: a thrown status lookup only clears the signature (inner
catch), re-broadcasts follow `broadcastDue`, the outer catch records
`lastError` and re-raises only on the slippage code, and after the loop a
still-held signature is returned as success (lines 112-119 of the source).
Arguments: attempts made, held signature, `lastError`, broadcasts issued,
remaining attempts. -/
def sendLoopGo (env : Nat → AttemptEnv) :
    Nat → Option String → Option String → Nat → Nat → Except P3Error String × Nat
  | _, sig, lastError, bc, 0 =>
    (match sig with
     | some s => .ok s
     | none =>
       match lastError with
       | some m => .error (.lastErr m)
       | none => .error .exhausted, bc)
  | a, sig, lastError, bc, rem+1 =>
    let e := env (a+1)
    match sig with
    | some s =>
      match e.statusResult with
      | .ok st =>
        if isConfirmedOpt st then (.ok s, bc)
        else
          -- signature kept, so `!signature` is false: broadcast only when due
          if broadcastDue (a+1) then
            match e.sendResult with
            | .error msg =>
              if strIncludes msg "0x1771" then (.error .slippage, bc+1)
              else sendLoopGo env (a+1) none (some msg) (bc+1) rem
            | .ok s2 =>
              match e.confirmResult with
              | .ok _ => (.ok s2, bc+1)
              | .error _ => sendLoopGo env (a+1) (some s2) lastError (bc+1) rem
          else sendLoopGo env (a+1) (some s) lastError bc rem
      | .error _ =>
        -- inner catch cleared the signature, so the send branch runs
        match e.sendResult with
        | .error msg =>
          if strIncludes msg "0x1771" then (.error .slippage, bc+1)
          else sendLoopGo env (a+1) none (some msg) (bc+1) rem
        | .ok s2 =>
          match e.confirmResult with
          | .ok _ => (.ok s2, bc+1)
          | .error _ => sendLoopGo env (a+1) (some s2) lastError (bc+1) rem
    | none =>
      match e.sendResult with
      | .error msg =>
        if strIncludes msg "0x1771" then (.error .slippage, bc+1)
        else sendLoopGo env (a+1) none (some msg) (bc+1) rem
      | .ok s2 =>
        match e.confirmResult with
        | .ok _ => (.ok s2, bc+1)
        | .error _ => sendLoopGo env (a+1) (some s2) lastError (bc+1) rem

/-- `MAX_ATTEMPTS` in part_003. -/
def MAX_ATTEMPTS : Nat := 15

/-- part_003's `sendSolanaTransaction`, attempt budget as a parameter; the
source instantiates it at `MAX_ATTEMPTS = 15`. -/
def sendSolanaTransaction (env : Nat → AttemptEnv) (maxAttempts : Nat := MAX_ATTEMPTS) :
    Except P3Error String × Nat :=
  sendLoopGo env 0 none none 0 maxAttempts

end Part003

namespace SolanaEvm

/-- The `while (true)` attestation poll of `waitForAttestation`
(solana-evm.ts lines 190-211; the same loop appears in part_006 and, wrapped
in a try/catch, in evm-solana.ts).  `service p` is the parsed body of the
p-th lookup.  The result pairs the returned attestation (or `none` when the
fuel ran out with the loop still polling) with the number of lookups this
invocation performed. -/
def waitForAttestationGo (service : Nat → CircleResponse) :
    Nat → Nat → Option Attestation × Nat
  | _, 0 => (none, 0)
  | poll, fuel+1 =>
    match (service poll).messages.head? with
    | some m =>
      if m.attestation ≠ "PENDING" then (some ⟨m.message, m.attestation⟩, 1)
      else
        let r := waitForAttestationGo service (poll+1) fuel
        (r.1, r.2 + 1)
    | none =>
      let r := waitForAttestationGo service (poll+1) fuel
      (r.1, r.2 + 1)

/-- `waitForAttestation` started at the first poll. -/
def waitForAttestation (service : Nat → CircleResponse) (fuel : Nat) :
    Option Attestation × Nat :=
  waitForAttestationGo service 0 fuel

end SolanaEvm

namespace Part006

/-- Failures of `fetchAttestation`: the `Circle API error` throw on a non-ok
HTTP response, and the `Attestation timeout exceeded` throw after
`maxRetries` polls. -/
inductive FetchErr
  | circleApiError
  | timeout
deriving DecidableEq

/-- The bounded poll loop of `fetchAttestation` (part_006): `service i` is
the i-th lookup, `none` standing for a non-ok HTTP response (`!res.ok`).
Recursion is on the remaining retries (`maxRetries - retries` in the
source); the result pairs the outcome with the number of lookups performed. -/
def fetchAttestationLoop (service : Nat → Option CircleResponse) :
    Nat → Nat → Except FetchErr Attestation × Nat
  | _, 0 => (.error .timeout, 0)
  | i, rem+1 =>
    match service i with
    | none => (.error .circleApiError, 1)
    | some resp =>
      match resp.messages.head? with
      | some m =>
        if m.attestation ≠ "PENDING" then (.ok ⟨m.message, m.attestation⟩, 1)
        else
          let r := fetchAttestationLoop service (i+1) rem
          (r.1, r.2 + 1)
      | none =>
        let r := fetchAttestationLoop service (i+1) rem
        (r.1, r.2 + 1)

/-- `fetchAttestation` with its default `maxRetries = 300` (the
`pollInterval = 2000` parameter only spaces the polls in time and is not
modelled). -/
def fetchAttestation (service : Nat → Option CircleResponse)
    (maxRetries : Nat := 300) : Except FetchErr Attestation × Nat :=
  fetchAttestationLoop service 0 maxRetries

end Part006

/-- One call of `axios.post(KANA_API_URL/v1/claim, ...)` as the retry helper
sees it: a successful response body, or a thrown error with
`err?.response?.status` and the parsed numeric `retry-after` header (`none`
when the header — or the whole response — is absent). -/
inductive ClaimAttempt
  | success (resp : String)
  | failure (status : Option Nat) (retryAfter : Option Nat)
deriving DecidableEq

/-- What a run of `callClaimWithRetry` did: its outcome (`none` when the fuel
ran out mid-loop), the number of requests issued, and the back-off durations
slept between consecutive requests, in seconds and in order. -/
structure ClaimRun where
  result : Option (Except (Option Nat × Option Nat) String)
  calls : Nat
  waits : List Nat
deriving DecidableEq

namespace Part014

/-- The `while (true)` loop of `callClaimWithRetry` (part_014; evm-aptos.ts
has the identical loop with default 5): on a 429 it sleeps
`Number(headers["retry-after"] ?? default)` seconds and retries the same
request, any other failure is re-thrown, a success is returned. -/
def callClaimWithRetryGo (defaultRetryAfter : Nat) (attempts : Nat → ClaimAttempt) :
    Nat → Nat → ClaimRun
  | _, 0 => ⟨none, 0, []⟩
  | i, fuel+1 =>
    match attempts i with
    | .success r => ⟨some (.ok r), 1, []⟩
    | .failure status retryAfter =>
      if status = some 429 then
        let w := retryAfter.getD defaultRetryAfter
        let rest := callClaimWithRetryGo defaultRetryAfter attempts (i+1) fuel
        ⟨rest.result, rest.calls + 1, w :: rest.waits⟩
      else ⟨some (.error (status, retryAfter)), 1, []⟩

/-- `callClaimWithRetry` of part_014 (`retry-after` default 10 seconds). -/
def callClaimWithRetry (attempts : Nat → ClaimAttempt) (fuel : Nat) : ClaimRun :=
  callClaimWithRetryGo 10 attempts 0 fuel

end Part014

namespace EvmAptos

/-- `callClaimWithRetry` of evm-aptos.ts: the same loop with a 5-second
default back-off. -/
def callClaimWithRetry (attempts : Nat → ClaimAttempt) (fuel : Nat) : ClaimRun :=
  Part014.callClaimWithRetryGo 5 attempts 0 fuel

end EvmAptos

/-- An attempt of the evm-solana retry loop on which nothing terminal
happens: the status lookup succeeds but reports no confirmed/finalized
status, the broadcast succeeds, and the confirmation race rejects (times
out).  This is the "every status check/confirmation wait times out" scenario
of the spec. -/
def attemptTimesOut (e : AttemptEnv) : Bool :=
  (match e.statusResult with
   | .ok st => !isConfirmedOpt st
   | .error _ => false) &&
  (match e.sendResult with
   | .ok _ => true
   | .error _ => false) &&
  (match e.confirmResult with
   | .ok _ => false
   | .error _ => true)

/-- A lookup result on which an attestation poll loop keeps waiting, through
the possible HTTP failure (`none`). -/
def optPending (x : Option CircleResponse) : Bool :=
  match x with
  | none => false
  | some r => respPending r

/-- A claim attempt that failed with HTTP status 429. -/
def is429 (x : ClaimAttempt) : Bool :=
  match x with
  | .success _ => false
  | .failure status _ => status == some 429

/-- The back-off the 429 handler sleeps for after this attempt:
`Number(headers["retry-after"] ?? default)`. -/
def backoffOf (d : Nat) (x : ClaimAttempt) : Nat :=
  match x with
  | .success _ => d
  | .failure _ retryAfter => retryAfter.getD d

/-- The back-off durations a run of the 429-retry loop sleeps when its
requests `i, i+1, ..., i+n-1` are all rate-limited: each one's `retry-after`
hint, with `d` substituted where the hint is absent. -/
def retryBackoffs (d : Nat) (attempts : Nat → ClaimAttempt) : Nat → Nat → List Nat
  | _, 0 => []
  | i, n+1 => backoffOf d (attempts i) :: retryBackoffs d attempts (i+1) n

namespace SwapSolanaKit

/-- Invariant of every state reachable from `init` when the first terminal
poll is a confirmed one (poll `k`): a finished foreground implies the
resender has returned and the trace ends with the return event; a
joining/finished outcome is the confirmed signature and the abort flag is
set; the poll counter never passes `k`. -/
def Inv (sig : String) (k : Nat) (st : SysState) : Prop :=
  (∀ o, st.main = .finished o → st.res = .done ∧ st.trace.getLast? = some .ret)
  ∧ (∀ o, st.main = .joining o ∨ st.main = .finished o →
      st.aborted = true ∧ o = .confirmed sig)
  ∧ (∀ j, st.main = .polling j → j ≤ k)

end SwapSolanaKit

/-! Concrete inputs used by the closed counterexamples and witnesses. -/

/-- An attestation service stuck at `PENDING` forever. -/
def pendingService : Nat → CircleResponse := fun _ => ⟨[⟨"m", "PENDING"⟩]⟩

/-- A pending attestation-service response body. -/
def pendResp : CircleResponse := ⟨[⟨"m", "PENDING"⟩]⟩

/-- A ready attestation-service response body. -/
def readyResp : CircleResponse := ⟨[⟨"0xmsg", "0xsig"⟩]⟩

/-- A service that is pending on the first 300 lookups and ready afterwards. -/
def svc300 : Nat → Option CircleResponse := fun p =>
  if p < 300 then some pendResp else some readyResp

/-- A service that is pending on the first 2 lookups and ready afterwards. -/
def svc2 : Nat → Option CircleResponse := fun p =>
  if p < 2 then some pendResp else some readyResp

/-- `svc2` for the poller that does not model HTTP failures. -/
def wsvc2 : Nat → CircleResponse := fun p =>
  if p < 2 then pendResp else readyResp

/-- Every attempt: status lookup returns a null entry, the broadcast returns
a signature, and the confirmation race rejects with the web3.js blockheight
expiry error — the freshness anchor is observed invalid on every attempt. -/
def envExpired : Nat → AttemptEnv := fun _ =>
  ⟨.ok none, .ok "sig", .error "TransactionExpiredBlockheightExceededError: block height exceeded"⟩

/-- Every attempt: non-terminal status, successful broadcast, confirmation
race lost to the 5-second timeout. -/
def envTimeout : Nat → AttemptEnv := fun _ =>
  ⟨.ok none, .ok "s", .error "Timeout"⟩

/-- Every external call of every attempt throws the on-chain slippage
violation error code 0x1771. -/
def env0771 : Nat → AttemptEnv := fun _ =>
  ⟨.error "custom program error: 0x1771", .error "custom program error: 0x1771", .error "Timeout"⟩

/-- Attempt 1 broadcasts `sg` whose confirmation times out; attempt 2's
status lookup reports a null entry.  Drives part_003 to its post-loop
signature return. -/
def envP3 : Nat → AttemptEnv := fun a =>
  if a = 1 then ⟨.ok none, .ok "sg", .error "Timeout"⟩
  else ⟨.ok none, .ok "sg2", .error "Timeout"⟩

/-- Both broadcasts throw plain network errors (no slippage code). -/
def envP3fail : Nat → AttemptEnv := fun a =>
  if a = 1 then ⟨.ok none, .error "m1", .error "Timeout"⟩
  else ⟨.ok none, .error "m2", .error "Timeout"⟩

/-- Two rate-limited claim calls (the first with a `retry-after` of 7
seconds, the second without the header), then a success. -/
def claimsOkAfter2 : Nat → ClaimAttempt := fun i =>
  if i = 0 then .failure (some 429) (some 7)
  else if i = 1 then .failure (some 429) none
  else .success "done"

/-- One rate-limited claim call, then a hard HTTP 500 failure. -/
def claimsHardFail : Nat → ClaimAttempt := fun i =>
  if i = 0 then .failure (some 429) (some 3)
  else .failure (some 500) none

/-- A status oracle whose very first poll reports `confirmed`. -/
def okOracle : Nat → Option SigStatus := fun _ => some ⟨some "confirmed", none, none⟩

/-- Poll 0 has no status entry yet; poll 1 reports slot 100 with no error and
no confirmation. -/
def expOracle : Nat → Option SigStatus := fun j =>
  if j = 0 then none else some ⟨none, none, some 100⟩

/-! Helper lemmas about the attestation pollers. -/

namespace SolanaEvm

/-- If the service is pending on the first `n` polls (counted from `poll`)
and ready at poll `poll + n`, the unbounded loop returns that poll's first
message after exactly `n + 1` lookups, given enough fuel. -/
theorem wait_ready_after (service : Nat → CircleResponse) (m : CircleMessage) :
    ∀ (n poll fuel : Nat), n < fuel →
      (∀ j, j < n → respPending (service (poll + j)) = true) →
      (service (poll + n)).messages.head? = some m →
      m.attestation ≠ "PENDING" →
      waitForAttestationGo service poll fuel = (some ⟨m.message, m.attestation⟩, n + 1) := by
  intro n
  induction n with
  | zero =>
    intro poll fuel hfuel _ hready hnp
    obtain ⟨fuel, rfl⟩ : ∃ f, fuel = f + 1 := ⟨fuel - 1, by omega⟩
    rw [Nat.add_zero] at hready
    unfold waitForAttestationGo
    simp [hready, hnp]
  | succ n ih =>
    intro poll fuel hfuel hpend hready hnp
    obtain ⟨fuel, rfl⟩ : ∃ f, fuel = f + 1 := ⟨fuel - 1, by omega⟩
    have h0 := hpend 0 (Nat.succ_pos n)
    rw [Nat.add_zero] at h0
    have hrec := ih (poll + 1) fuel (by omega)
      (fun j hj => by
        have := hpend (j + 1) (by omega)
        rwa [show poll + (j + 1) = poll + 1 + j by omega] at this)
      (by rwa [show poll + 1 + n = poll + (n + 1) by omega])
      hnp
    unfold waitForAttestationGo
    unfold respPending at h0
    cases hm : (service poll).messages.head? with
    | none => simp [hrec]
    | some m0 =>
      rw [hm] at h0
      have hm0 : m0.attestation = "PENDING" := by simpa using h0
      simp [hm0, hrec]

/-- Whenever the unbounded loop terminates, the returned pair is exactly the
`message`/`attestation` fields of the first message of the response it
stopped on, and that attestation is not `"PENDING"`. -/
theorem wait_first_message (service : Nat → CircleResponse) :
    ∀ (fuel poll n : Nat) (att : Attestation),
      waitForAttestationGo service poll fuel = (some att, n) →
      1 ≤ n ∧ ∃ m, (service (poll + n - 1)).messages.head? = some m ∧
        att.messageBytes = m.message ∧ att.attestationSignature = m.attestation ∧
        m.attestation ≠ "PENDING" := by
  intro fuel
  induction fuel with
  | zero =>
    intro poll n att h
    exact absurd (congrArg Prod.fst h) (by simp [waitForAttestationGo])
  | succ f ih =>
    intro poll n att h
    unfold waitForAttestationGo at h
    cases hg : waitForAttestationGo service (poll + 1) f with
    | mk r1 r2 =>
      cases hm : (service poll).messages.head? with
      | none =>
        rw [hm, hg] at h
        simp only [Prod.mk.injEq] at h
        obtain ⟨h1, h2⟩ := h
        obtain ⟨hn, m, hsvc, hmsg, hsig, hnp⟩ :=
          ih (poll + 1) r2 att (by rw [hg, h1])
        refine ⟨by omega, m, ?_, hmsg, hsig, hnp⟩
        rwa [show poll + n - 1 = poll + 1 + r2 - 1 by omega]
      | some m =>
        rw [hm, hg] at h
        by_cases hP : m.attestation = "PENDING"
        · simp only [hP, ne_eq, not_true_eq_false, if_false, Prod.mk.injEq] at h
          obtain ⟨h1, h2⟩ := h
          obtain ⟨hn, m', hsvc, hmsg, hsig, hnp⟩ :=
            ih (poll + 1) r2 att (by rw [hg, h1])
          refine ⟨by omega, m', ?_, hmsg, hsig, hnp⟩
          rwa [show poll + n - 1 = poll + 1 + r2 - 1 by omega]
        · simp only [hP, ne_eq, not_false_eq_true, if_true, Prod.mk.injEq] at h
          obtain ⟨h1, h2⟩ := h
          refine ⟨by omega, m, ?_, ?_, ?_, hP⟩
          · rwa [show poll + n - 1 = poll by omega]
          · rw [← Option.some.inj h1]
          · rw [← Option.some.inj h1]

end SolanaEvm

namespace Part006

/-- If the service is pending on the first `n` lookups (counted from `i`)
and ready at lookup `i + n`, the bounded loop returns that lookup's first
message after exactly `n + 1` lookups, provided `n` is below the remaining
retry budget. -/
theorem fetch_ready_after (service : Nat → Option CircleResponse)
    (resp : CircleResponse) (m : CircleMessage) :
    ∀ (n i rem : Nat), n < rem →
      (∀ j, j < n → optPending (service (i + j)) = true) →
      service (i + n) = some resp →
      resp.messages.head? = some m →
      m.attestation ≠ "PENDING" →
      fetchAttestationLoop service i rem = (.ok ⟨m.message, m.attestation⟩, n + 1) := by
  intro n
  induction n with
  | zero =>
    intro i rem hrem _ hsvc hready hnp
    obtain ⟨rem, rfl⟩ : ∃ r, rem = r + 1 := ⟨rem - 1, by omega⟩
    rw [Nat.add_zero] at hsvc
    simp [fetchAttestationLoop, hsvc, hready, hnp]
  | succ n ih =>
    intro i rem hrem hpend hsvc hready hnp
    obtain ⟨rem, rfl⟩ : ∃ r, rem = r + 1 := ⟨rem - 1, by omega⟩
    have h0 := hpend 0 (Nat.succ_pos n)
    rw [Nat.add_zero] at h0
    have hrec := ih (i + 1) rem (by omega)
      (fun j hj => by
        have := hpend (j + 1) (by omega)
        rwa [show i + (j + 1) = i + 1 + j by omega] at this)
      (by rwa [show i + 1 + n = i + (n + 1) by omega]) hready hnp
    cases hsi : service i with
    | none => rw [hsi] at h0; exact absurd h0 (by simp [optPending])
    | some r0 =>
      rw [hsi] at h0
      cases hm : r0.messages.head? with
      | none => simp [fetchAttestationLoop, hsi, hm, hrec]
      | some m0 =>
        have hm0 : m0.attestation = "PENDING" := by
          simpa [optPending, respPending, hm] using h0
        simp [fetchAttestationLoop, hsi, hm, hm0, hrec]

/-- Whenever the bounded loop returns an attestation, it is exactly the
`message`/`attestation` fields of the first message of the response it
stopped on, and that attestation is not `"PENDING"`. -/
theorem fetch_first_message (service : Nat → Option CircleResponse) :
    ∀ (rem i n : Nat) (att : Attestation),
      fetchAttestationLoop service i rem = (.ok att, n) →
      1 ≤ n ∧ ∃ resp m, service (i + n - 1) = some resp ∧
        resp.messages.head? = some m ∧
        att.messageBytes = m.message ∧ att.attestationSignature = m.attestation ∧
        m.attestation ≠ "PENDING" := by
  intro rem
  induction rem with
  | zero =>
    intro i n att h
    exact absurd (congrArg Prod.fst h) (by simp [fetchAttestationLoop])
  | succ f ih =>
    intro i n att h
    cases hsi : service i with
    | none =>
      rw [show fetchAttestationLoop service i (f + 1) = (.error .circleApiError, 1) from by
        simp [fetchAttestationLoop, hsi]] at h
      exact absurd (congrArg Prod.fst h) (by simp)
    | some resp =>
      cases hm : resp.messages.head? with
      | none =>
        rw [show fetchAttestationLoop service i (f + 1) =
            ((fetchAttestationLoop service (i + 1) f).1,
             (fetchAttestationLoop service (i + 1) f).2 + 1) from by
          simp [fetchAttestationLoop, hsi, hm]] at h
        cases hg : fetchAttestationLoop service (i + 1) f with
        | mk r1 r2 =>
          rw [hg] at h
          simp only [Prod.mk.injEq] at h
          obtain ⟨h1, h2⟩ := h
          obtain ⟨hn, resp2, m2, hsvc, hhd, hmsg, hsig, hnp⟩ :=
            ih (i + 1) r2 att (by rw [hg, h1])
          refine ⟨by omega, resp2, m2, ?_, hhd, hmsg, hsig, hnp⟩
          rwa [show i + n - 1 = i + 1 + r2 - 1 by omega]
      | some m =>
        by_cases hP : m.attestation = "PENDING"
        · rw [show fetchAttestationLoop service i (f + 1) =
              ((fetchAttestationLoop service (i + 1) f).1,
               (fetchAttestationLoop service (i + 1) f).2 + 1) from by
            simp [fetchAttestationLoop, hsi, hm, hP]] at h
          cases hg : fetchAttestationLoop service (i + 1) f with
          | mk r1 r2 =>
            rw [hg] at h
            simp only [Prod.mk.injEq] at h
            obtain ⟨h1, h2⟩ := h
            obtain ⟨hn, resp2, m2, hsvc, hhd, hmsg, hsig, hnp⟩ :=
              ih (i + 1) r2 att (by rw [hg, h1])
            refine ⟨by omega, resp2, m2, ?_, hhd, hmsg, hsig, hnp⟩
            rwa [show i + n - 1 = i + 1 + r2 - 1 by omega]
        · rw [show fetchAttestationLoop service i (f + 1) =
              (.ok ⟨m.message, m.attestation⟩, 1) from by
            simp [fetchAttestationLoop, hsi, hm, hP]] at h
          simp only [Prod.mk.injEq] at h
          obtain ⟨h1, h2⟩ := h
          refine ⟨by omega, resp, m, ?_, hm, ?_, ?_, hP⟩
          · rwa [show i + n - 1 = i by omega]
          · rw [← Except.ok.inj h1]
          · rw [← Except.ok.inj h1]

end Part006

namespace Part014

/-- General behaviour of the 429-retry loop starting at request `i`: when the
first `n` requests are rate-limited (HTTP 429) and the one after them is not,
the loop issues exactly `n + 1` requests, sleeping each 429's `retry-after`
hint (or the default `d`) before the next request, and ends with that last
request's outcome — its response on success, the re-thrown error otherwise. -/
theorem claim_retry_spec (d : Nat) (attempts : Nat → ClaimAttempt) :
    ∀ (n i fuel : Nat), n < fuel →
      (∀ j, j < n → is429 (attempts (i + j)) = true) →
      (∀ r, attempts (i + n) = .success r →
        callClaimWithRetryGo d attempts i fuel =
          ⟨some (.ok r), n + 1, retryBackoffs d attempts i n⟩)
      ∧ (∀ status retryAfter, attempts (i + n) = .failure status retryAfter →
          status ≠ some 429 →
          callClaimWithRetryGo d attempts i fuel =
            ⟨some (.error (status, retryAfter)), n + 1, retryBackoffs d attempts i n⟩) := by
  intro n
  induction n with
  | zero =>
    intro i fuel hfuel _
    obtain ⟨fuel, rfl⟩ : ∃ f, fuel = f + 1 := ⟨fuel - 1, by omega⟩
    constructor
    · intro r hr
      rw [Nat.add_zero] at hr
      simp [callClaimWithRetryGo, hr, retryBackoffs]
    · intro status retryAfter hr hne
      rw [Nat.add_zero] at hr
      simp [callClaimWithRetryGo, hr, hne, retryBackoffs]
  | succ n ih =>
    intro i fuel hfuel h429
    obtain ⟨fuel, rfl⟩ : ∃ f, fuel = f + 1 := ⟨fuel - 1, by omega⟩
    have h0 := h429 0 (Nat.succ_pos n)
    rw [Nat.add_zero] at h0
    obtain ⟨ra, ha⟩ : ∃ ra, attempts i = .failure (some 429) ra := by
      cases ha : attempts i with
      | success r => rw [ha] at h0; exact absurd h0 (by simp [is429])
      | failure status ra =>
        rw [ha] at h0
        have : status = some 429 := by simpa [is429] using h0
        exact ⟨ra, by rw [this]⟩
    have hshift : ∀ j, j < n → is429 (attempts (i + 1 + j)) = true := fun j hj => by
      have := h429 (j + 1) (by omega)
      rwa [show i + (j + 1) = i + 1 + j by omega] at this
    have hstep : callClaimWithRetryGo d attempts i (fuel + 1) =
        ⟨(callClaimWithRetryGo d attempts (i + 1) fuel).result,
         (callClaimWithRetryGo d attempts (i + 1) fuel).calls + 1,
         ra.getD d :: (callClaimWithRetryGo d attempts (i + 1) fuel).waits⟩ := by
      simp [callClaimWithRetryGo, ha]
    have hback : retryBackoffs d attempts i (n + 1) =
        ra.getD d :: retryBackoffs d attempts (i + 1) n := by
      simp [retryBackoffs, ha, backoffOf]
    constructor
    · intro r hr
      have hs := (ih (i + 1) fuel (by omega) hshift).1 r
        (by rwa [show i + 1 + n = i + (n + 1) by omega])
      rw [hstep, hs, hback]
    · intro status retryAfter hr hne
      have hs := (ih (i + 1) fuel (by omega) hshift).2 status retryAfter
        (by rwa [show i + 1 + n = i + (n + 1) by omega]) hne
      rw [hstep, hs, hback]

end Part014

namespace SwapSolanaKit

/-- Runs compose over concatenated schedules. -/
theorem run_append (statuses : Nat → Option SigStatus) (lvbh : Nat) (sig : String)
    (l1 l2 : List Bool) (st : SysState) :
    run statuses lvbh sig (l1 ++ l2) st =
      run statuses lvbh sig l2 (run statuses lvbh sig l1 st) := by
  induction l1 generalizing st with
  | nil => rfl
  | cons c cs ih => simp only [List.cons_append, run]; exact ih _

/-- Once the foreground has returned and the resender is done, no further
scheduling changes the state. -/
theorem run_stuck (statuses : Nat → Option SigStatus) (lvbh : Nat) (sig : String)
    (o : SwapOutcome) :
    ∀ (cs : List Bool) (st : SysState), st.main = .finished o → st.res = .done →
      run statuses lvbh sig cs st = st := by
  intro cs
  induction cs with
  | nil => intro st _ _; rfl
  | cons c cs ih =>
    intro st hm hr
    have hsm : stepMain statuses lvbh sig st = st := by simp [stepMain, hm]
    have hsr : stepRes st = st := by simp [stepRes, hr]
    cases c
    · simpa only [run, Bool.false_eq_true, if_false, hsr] using ih st hm hr
    · simpa only [run, if_true, hsm] using ih st hm hr

/-- The invariant `Inv` is preserved by either coroutine's step when the
first `k` polls are non-terminal and poll `k` reports confirmation. -/
theorem inv_step (statuses : Nat → Option SigStatus) (lvbh : Nat) (sig : String) (k : Nat)
    (hpre : ∀ j, j < k → pollClass lvbh (statuses j) = .continueC)
    (hk : pollClass lvbh (statuses k) = .confirmedC) (st : SysState) (c : Bool)
    (hinv : Inv sig k st) :
    Inv sig k (if c then stepMain statuses lvbh sig st else stepRes st) := by
  obtain ⟨hA, hB, hC⟩ := hinv
  cases c
  · -- resender step
    simp only [Bool.false_eq_true, if_false]
    cases hres : st.res with
    | idle =>
      cases hab : st.aborted
      · have hstep : stepRes st = { st with res := .sleeping } := by
          simp [stepRes, hres, hab]
        rw [hstep]
        refine ⟨fun o' h => ?_, fun o' h => hB o' h, fun j h => hC j h⟩
        exact absurd (hA o' h).1 (by rw [hres]; simp)
      · have hstep : stepRes st = { st with res := .done } := by
          simp [stepRes, hres, hab]
        rw [hstep]
        refine ⟨fun o' h => ?_, fun o' h => hB o' h, fun j h => hC j h⟩
        exact absurd (hA o' h).1 (by rw [hres]; simp)
    | sleeping =>
      have hstep : stepRes st = { st with res := .idle, trace := st.trace ++ [.broadcast] } := by
        simp [stepRes, hres]
      rw [hstep]
      refine ⟨fun o' h => ?_, fun o' h => hB o' h, fun j h => hC j h⟩
      exact absurd (hA o' h).1 (by rw [hres]; simp)
    | done =>
      have hstep : stepRes st = st := by simp [stepRes, hres]
      rw [hstep]
      exact ⟨hA, hB, hC⟩
  · -- foreground step
    simp only [if_true]
    cases hm : st.main with
    | polling j =>
      have hj : j ≤ k := hC j hm
      rcases Nat.lt_or_ge j k with hjk | hjk
      · have hstep : stepMain statuses lvbh sig st = { st with main := .polling (j+1) } := by
          simp [stepMain, hm, hpre j hjk]
        rw [hstep]
        refine ⟨fun o' h => ?_, fun o' h => ?_, fun j' h => ?_⟩
        · simp at h
        · rcases h with h | h <;> simp at h
        · have : j + 1 = j' := by simpa using h
          omega
      · have hjeq : j = k := by omega
        have hstep : stepMain statuses lvbh sig st =
            { st with main := .joining (.confirmed sig), aborted := true } := by
          simp [stepMain, hm, hjeq, hk]
        rw [hstep]
        refine ⟨fun o' h => ?_, fun o' h => ?_, fun j' h => ?_⟩
        · simp at h
        · rcases h with h | h
          · exact ⟨rfl, ((by simpa using h : SwapOutcome.confirmed sig = o')).symm⟩
          · simp at h
        · simp at h
    | joining o =>
      have hBo := hB o (Or.inl hm)
      cases hres : st.res with
      | done =>
        have hstep : stepMain statuses lvbh sig st =
            { st with main := .finished o, trace := st.trace ++ [.ret] } := by
          simp [stepMain, hm, hres]
        rw [hstep]
        refine ⟨fun o' h => ?_, fun o' h => ?_, fun j' h => ?_⟩
        · have ho : o = o' := by simpa using h
          exact ⟨hres, by rw [List.getLast?_concat]⟩
        · rcases h with h | h
          · simp at h
          · have ho : o = o' := by simpa using h
            exact ho ▸ hBo
        · simp at h
      | idle =>
        have hstep : stepMain statuses lvbh sig st = st := by
          simp [stepMain, hm, hres]
        rw [hstep]
        exact ⟨hA, hB, hC⟩
      | sleeping =>
        have hstep : stepMain statuses lvbh sig st = st := by
          simp [stepMain, hm, hres]
        rw [hstep]
        exact ⟨hA, hB, hC⟩
    | finished o =>
      have hstep : stepMain statuses lvbh sig st = st := by simp [stepMain, hm]
      rw [hstep]
      exact ⟨hA, hB, hC⟩

/-- The invariant holds along every run from an invariant state. -/
theorem inv_run (statuses : Nat → Option SigStatus) (lvbh : Nat) (sig : String) (k : Nat)
    (hpre : ∀ j, j < k → pollClass lvbh (statuses j) = .continueC)
    (hk : pollClass lvbh (statuses k) = .confirmedC) :
    ∀ (cs : List Bool) (st : SysState), Inv sig k st →
      Inv sig k (run statuses lvbh sig cs st) := by
  intro cs
  induction cs with
  | nil => intro st h; exact h
  | cons c cs ih =>
    intro st h
    exact ih _ (inv_step statuses lvbh sig k hpre hk st c h)

/-- A block of `n` consecutive foreground steps over non-terminal polls just
advances the poll counter. -/
theorem run_replicate_polls (statuses : Nat → Option SigStatus) (lvbh : Nat) (sig : String) :
    ∀ (n p : Nat) (st : SysState), st.main = .polling p →
      (∀ j, p ≤ j → j < p + n → pollClass lvbh (statuses j) = .continueC) →
      run statuses lvbh sig (List.replicate n true) st = { st with main := .polling (p + n) } := by
  intro n
  induction n with
  | zero =>
    intro p st hm _
    rw [Nat.add_zero, List.replicate]
    show st = { st with main := .polling p }
    conv_lhs => rw [show st = ⟨st.main, st.res, st.aborted, st.trace⟩ from rfl, hm]
  | succ n ih =>
    intro p st hm hpoll
    rw [List.replicate]
    show run statuses lvbh sig (List.replicate n true) (stepMain statuses lvbh sig st) = _
    have hstep : stepMain statuses lvbh sig st = { st with main := .polling (p+1) } := by
      simp [stepMain, hm, hpoll p (Nat.le_refl p) (by omega)]
    rw [hstep, ih (p+1) _ rfl (fun j h1 h2 => hpoll j (by omega) (by omega))]
    rw [show p + 1 + n = p + (n + 1) by omega]

/-- The status-poll loop of `sendAndConfirmTransaction` reaches the expiry
throw when polls `p, ..., p+k-1` are non-terminal and poll `p+k` trips the
block-height check. -/
theorem confirm_expired (statuses : Nat → Option SigStatus) (lvbh : Nat) (sig : String) :
    ∀ (k p fuel : Nat), k < fuel →
      (∀ j, j < k → pollClass lvbh (statuses (p + j)) = .continueC) →
      pollClass lvbh (statuses (p + k)) = .expiredC →
      confirmLoopGo statuses lvbh sig p fuel = some .expired := by
  intro k
  induction k with
  | zero =>
    intro p fuel hfuel _ hk
    obtain ⟨fuel, rfl⟩ : ∃ f, fuel = f + 1 := ⟨fuel - 1, by omega⟩
    rw [Nat.add_zero] at hk
    simp [confirmLoopGo, hk]
  | succ k ih =>
    intro p fuel hfuel hpre hk
    obtain ⟨fuel, rfl⟩ : ∃ f, fuel = f + 1 := ⟨fuel - 1, by omega⟩
    have h0 := hpre 0 (Nat.succ_pos k)
    rw [Nat.add_zero] at h0
    rw [show confirmLoopGo statuses lvbh sig p (fuel + 1) =
        confirmLoopGo statuses lvbh sig (p + 1) fuel from by simp [confirmLoopGo, h0]]
    exact ih (p + 1) fuel (by omega)
      (fun j hj => by
        have := hpre (j + 1) (by omega)
        rwa [show p + (j + 1) = p + 1 + j by omega] at this)
      (by rwa [show p + 1 + k = p + (k + 1) by omega])

end SwapSolanaKit

namespace EvmSolana

/-- When every attempt in the remaining budget has a non-confirming status
lookup, a successful broadcast and a lost confirmation race, the evm-solana
retry loop exhausts its budget, broadcasting once per remaining attempt, and
ends in the attempts-exhausted throw. -/
theorem timeout_go (env : Nat → AttemptEnv) :
    ∀ (rem a bc : Nat) (sig : Option String), (sig = none ∨ 1 ≤ a) →
      (∀ t, a + 1 ≤ t → t ≤ a + rem → attemptTimesOut (env t) = true) →
      sendLoopGo env a sig bc rem = (.error .attemptsExhausted, bc + rem) := by
  intro rem
  induction rem with
  | zero => intro a bc sig _ _; simp [sendLoopGo]
  | succ rem ih =>
    intro a bc sig hsig henv
    have ht := henv (a + 1) (Nat.le_refl _) (by omega)
    unfold attemptTimesOut at ht
    have hshift : ∀ t, (a + 1) + 1 ≤ t → t ≤ (a + 1) + rem → attemptTimesOut (env t) = true :=
      fun t h1 h2 => henv t (by omega) (by omega)
    cases hst : (env (a + 1)).statusResult with
    | error m => rw [hst] at ht; simp at ht
    | ok st =>
      cases hsd : (env (a + 1)).sendResult with
      | error m => rw [hst, hsd] at ht; simp at ht
      | ok s2 =>
        cases hcf : (env (a + 1)).confirmResult with
        | ok u => rw [hst, hsd, hcf] at ht; simp at ht
        | error m =>
          rw [hst, hsd, hcf] at ht
          have hconf : isConfirmedOpt st = false := by simpa using ht
          rw [show bc + (rem + 1) = (bc + 1) + rem by omega]
          cases sig with
          | none =>
            rw [show sendLoopGo env a none bc (rem + 1) =
                sendLoopGo env (a + 1) (some s2) (bc + 1) rem from by
              simp [sendLoopGo, hsd, hcf]]
            exact ih (a + 1) (bc + 1) (some s2) (Or.inr (by omega)) hshift
          | some s =>
            have ha : 1 ≤ a := by
              rcases hsig with h | h
              · exact absurd h (by simp)
              · exact h
            rw [show sendLoopGo env a (some s) bc (rem + 1) =
                sendLoopGo env (a + 1) (some s2) (bc + 1) rem from by
              simp [sendLoopGo, hst, hconf, hsd, hcf, show a + 1 > 1 by omega]]
            exact ih (a + 1) (bc + 1) (some s2) (Or.inr (by omega)) hshift

end EvmSolana

/-! The claims. -/

/-- Claim C2 (code bug): under an attestation service that reports a pending
or missing attestation on every poll, the `while (true)` poller
`waitForAttestation` of solana-evm.ts never returns, however many polls it is
allowed — it has no retry bound at all, contrary to the spec's contract that
the attestation poller fails with `Timeout` after a bounded number of polls
(a contract the sibling `fetchAttestation` with `maxRetries = 300` and the
part_011 poller with 120 retries do satisfy). -/
theorem C2_waitForAttestation_never_ends (service : Nat → CircleResponse)
    (hpend : ∀ p, respPending (service p) = true) :
    ∀ (fuel poll : Nat), (SolanaEvm.waitForAttestationGo service poll fuel).1 = none := by
  intro fuel
  induction fuel with
  | zero => intro poll; rfl
  | succ f ih =>
    intro poll
    have h0 := hpend poll
    cases hm : (service poll).messages.head? with
    | none => simp [SolanaEvm.waitForAttestationGo, hm, ih]
    | some m =>
      have hm0 : m.attestation = "PENDING" := by simpa [respPending, hm] using h0
      simp [SolanaEvm.waitForAttestationGo, hm, hm0, ih]

/-- Witness for C2: a service stuck at `PENDING` keeps the poller running
past any bound, here 1000 polls. -/
theorem C2_waitForAttestation_never_ends_witness :
    (SolanaEvm.waitForAttestationGo pendingService 0 1000).1 = none :=
  C2_waitForAttestation_never_ends pendingService (fun _ => rfl) 1000 0

/-- Claim C7 (code bug): the chain-to-CCTP-domain maps are not defined on
every member of `NetworkId`: both copies lack entries for `bsc` and `zkSync`,
and the evm-solana/solana-evm copy also lacks `sui`, so the domain lookup in
the attestation URL is `undefined` for those chains. -/
theorem C7_chain_map_missing_entries :
    EvmSolana.CHAIN_TO_CCTP_ID .bsc = none ∧
    EvmSolana.CHAIN_TO_CCTP_ID .zkSync = none ∧
    EvmSolana.CHAIN_TO_CCTP_ID .sui = none ∧
    AptosEvm.CHAIN_TO_CCTP_ID .bsc = none ∧
    AptosEvm.CHAIN_TO_CCTP_ID .zkSync = none := by
  decide

/-- Claim C10: every terminating call of either attestation poller returns
exactly the `message`/`attestation` fields of the first message of the
response it stopped on, and that attestation signature is not `"PENDING"`. -/
theorem C10_poller_returns_first_ready_message :
    (∀ (service : Nat → CircleResponse) (fuel poll n : Nat) (att : Attestation),
       SolanaEvm.waitForAttestationGo service poll fuel = (some att, n) →
       1 ≤ n ∧ ∃ m, (service (poll + n - 1)).messages.head? = some m ∧
         att.messageBytes = m.message ∧ att.attestationSignature = m.attestation ∧
         m.attestation ≠ "PENDING")
  ∧ (∀ (service : Nat → Option CircleResponse) (rem i n : Nat) (att : Attestation),
       Part006.fetchAttestationLoop service i rem = (.ok att, n) →
       1 ≤ n ∧ ∃ resp m, service (i + n - 1) = some resp ∧
         resp.messages.head? = some m ∧
         att.messageBytes = m.message ∧ att.attestationSignature = m.attestation ∧
         m.attestation ≠ "PENDING") :=
  ⟨fun service fuel poll n att h => SolanaEvm.wait_first_message service fuel poll n att h,
   fun service rem i n att h => Part006.fetch_first_message service rem i n att h⟩

/-- Witness for C10 at a concrete service that is ready on its third
response. -/
theorem C10_poller_returns_first_ready_message_witness :
    (1 ≤ 3 ∧ ∃ m, (wsvc2 (0 + 3 - 1)).messages.head? = some m ∧
      (Attestation.mk "0xmsg" "0xsig").messageBytes = m.message ∧
      (Attestation.mk "0xmsg" "0xsig").attestationSignature = m.attestation ∧
      m.attestation ≠ "PENDING")
  ∧ (1 ≤ 3 ∧ ∃ resp m, svc2 (0 + 3 - 1) = some resp ∧
      resp.messages.head? = some m ∧
      (Attestation.mk "0xmsg" "0xsig").messageBytes = m.message ∧
      (Attestation.mk "0xmsg" "0xsig").attestationSignature = m.attestation ∧
      m.attestation ≠ "PENDING") :=
  ⟨C10_poller_returns_first_ready_message.1 wsvc2 50 0 3 ⟨"0xmsg", "0xsig"⟩ (by decide),
   C10_poller_returns_first_ready_message.2 svc2 10 0 3 ⟨"0xmsg", "0xsig"⟩ (by decide)⟩

/-- Claim C5 as amended: the exactly-`N+1`-lookups behaviour holds for the
bounded `fetchAttestation` only for `N` strictly below its retry bound
(`maxRetries`, 300 by default) — at `N = maxRetries` it stops after
`maxRetries` lookups with the timeout error instead — while the unbounded
`waitForAttestation` has it for every `N`. -/
theorem C5_lookup_count_amended :
    (∀ (service : Nat → Option CircleResponse) (resp : CircleResponse) (m : CircleMessage)
       (n maxRetries : Nat), n < maxRetries →
       (∀ j, j < n → optPending (service j) = true) →
       service n = some resp → resp.messages.head? = some m → m.attestation ≠ "PENDING" →
       Part006.fetchAttestationLoop service 0 maxRetries = (.ok ⟨m.message, m.attestation⟩, n + 1))
  ∧ (∀ (service : Nat → CircleResponse) (m : CircleMessage) (n fuel : Nat), n < fuel →
       (∀ j, j < n → respPending (service j) = true) →
       (service n).messages.head? = some m → m.attestation ≠ "PENDING" →
       SolanaEvm.waitForAttestationGo service 0 fuel = (some ⟨m.message, m.attestation⟩, n + 1)) := by
  constructor
  · intro service resp m n maxRetries h1 h2 h3 h4 h5
    exact Part006.fetch_ready_after service resp m n 0 maxRetries h1
      (fun j hj => by rw [Nat.zero_add]; exact h2 j hj)
      (by rwa [Nat.zero_add]) h4 h5
  · intro service m n fuel h1 h2 h3 h4
    exact SolanaEvm.wait_ready_after service m n 0 fuel h1
      (fun j hj => by rw [Nat.zero_add]; exact h2 j hj)
      (by rwa [Nat.zero_add]) h4

set_option maxRecDepth 8000 in
/-- Counterexample for C5 as stated: at `N = 300` (the default retry bound),
a service pending on the first 300 lookups and ready on the next does not get
301 lookups and a returned payload — `fetchAttestation` stops after exactly
300 lookups with the timeout error. -/
theorem C5_fetch_timeout_at_bound :
    Part006.fetchAttestation svc300 = (.error .timeout, 300) := by
  decide

/-- Witness for C5 at `N = 2`: three lookups, payload returned unchanged, for
both pollers. -/
theorem C5_lookup_count_amended_witness :
    Part006.fetchAttestationLoop svc2 0 300 = (.ok ⟨"0xmsg", "0xsig"⟩, 3) ∧
    SolanaEvm.waitForAttestationGo wsvc2 0 50 = (some ⟨"0xmsg", "0xsig"⟩, 3) :=
  ⟨C5_lookup_count_amended.1 svc2 readyResp ⟨"0xmsg", "0xsig"⟩ 2 300 (by omega)
      (fun j hj => by interval_cases j <;> decide) (by decide) (by decide) (by decide),
   C5_lookup_count_amended.2 wsvc2 ⟨"0xmsg", "0xsig"⟩ 2 50 (by omega)
      (fun j hj => by interval_cases j <;> decide) (by decide) (by decide)⟩

/-- Claim C8: the claim helper retries exactly the rate-limited (HTTP 429)
requests, sleeping each response's `retry-after` hint — or the default `d`
(10 s in part_014, 5 s in evm-aptos.ts) when the hint is absent — before
re-issuing the same request, and propagates the first non-429 failure
without any further request. -/
theorem C8_claim_retry_429 (d : Nat) (attempts : Nat → ClaimAttempt) (n fuel : Nat)
    (hfuel : n < fuel) (h429 : ∀ j, j < n → is429 (attempts j) = true) :
    (∀ r, attempts n = .success r →
      Part014.callClaimWithRetryGo d attempts 0 fuel =
        ⟨some (.ok r), n + 1, retryBackoffs d attempts 0 n⟩)
    ∧ (∀ status retryAfter, attempts n = .failure status retryAfter → status ≠ some 429 →
        Part014.callClaimWithRetryGo d attempts 0 fuel =
          ⟨some (.error (status, retryAfter)), n + 1, retryBackoffs d attempts 0 n⟩) := by
  have h := Part014.claim_retry_spec d attempts n 0 fuel hfuel
    (fun j hj => by rw [Nat.zero_add]; exact h429 j hj)
  constructor
  · intro r hr
    exact h.1 r (by rwa [Nat.zero_add])
  · intro status retryAfter hr hne
    exact h.2 status retryAfter (by rwa [Nat.zero_add]) hne

/-- Witness for C8: two 429s (hints 7 s and absent, so 7 then the default 10)
followed by a success give three requests; a 429 followed by an HTTP 500
gives two requests and the propagated 500. -/
theorem C8_claim_retry_429_witness :
    Part014.callClaimWithRetryGo 10 claimsOkAfter2 0 5 = ⟨some (.ok "done"), 3, [7, 10]⟩ ∧
    Part014.callClaimWithRetryGo 5 claimsHardFail 0 5 = ⟨some (.error (some 500, none)), 2, [3]⟩ := by
  constructor
  · have h := (C8_claim_retry_429 10 claimsOkAfter2 2 5 (by omega)
      (fun j hj => by interval_cases j <;> decide)).1 "done" (by decide)
    exact h.trans (by decide)
  · have h := (C8_claim_retry_429 5 claimsHardFail 1 5 (by omega)
      (fun j hj => by interval_cases j; decide)).2 (some 500) none (by decide) (by decide)
    exact h.trans (by decide)

/-- Claim C9 (implicit behaviour of part_003, lines 112-119): when the retry
loop exhausts its attempt budget without ever seeing a confirmed/finalized
status, it returns the still-held signature of the last broadcast as a
successful result; it raises (the recorded `lastError`) only when no
signature is held at loop exit. -/
theorem C9_unconfirmed_signature_returned :
    (∀ (env : Nat → AttemptEnv) (s : String) (st : Option SigStatus) (e1 : String),
       (env 1).sendResult = .ok s → (env 1).confirmResult = .error e1 →
       (env 2).statusResult = .ok st → isConfirmedOpt st = false →
       Part003.sendSolanaTransaction env 2 = (.ok s, 1))
  ∧ (∀ (env : Nat → AttemptEnv) (m1 m2 : String),
       (env 1).sendResult = .error m1 → strIncludes m1 "0x1771" = false →
       (env 2).sendResult = .error m2 → strIncludes m2 "0x1771" = false →
       Part003.sendSolanaTransaction env 2 = (.error (.lastErr m2), 2)) := by
  constructor
  · intro env s st e1 h1 h2 h3 h4
    have hbd : Part003.broadcastDue 2 = false := by decide
    simp [Part003.sendSolanaTransaction, Part003.sendLoopGo, h1, h2, h3, h4, hbd]
  · intro env m1 m2 h1 h2 h3 h4
    simp [Part003.sendSolanaTransaction, Part003.sendLoopGo, h1, h2, h3, h4]

/-- Witness for C9: with both confirmation waits timing out, the run returns
the unconfirmed signature `sg` after one broadcast; with both broadcasts
throwing plain errors, the run re-raises the last recorded error. -/
theorem C9_unconfirmed_signature_returned_witness :
    Part003.sendSolanaTransaction envP3 2 = (.ok "sg", 1) ∧
    Part003.sendSolanaTransaction envP3fail 2 = (.error (.lastErr "m2"), 2) :=
  ⟨C9_unconfirmed_signature_returned.1 envP3 "sg" none "Timeout"
      (by decide) (by decide) (by decide) (by decide),
   C9_unconfirmed_signature_returned.2 envP3fail "m1" "m2"
      (by decide) (by decide) (by decide) (by decide)⟩

/-- Claim C4: as soon as an attempt's error message carries the slippage
code `0x1771` — whether the status lookup or the broadcast threw it — both
`sendSolanaTransaction` variants abort at once with the distinct slippage
error, issuing no broadcast call after the observation (the broadcast count
stays at its current value; `+1` in the broadcast cases counts the very call
whose failure carried the code). -/
theorem C4_slippage_fails_fast (env : Nat → AttemptEnv) (a bc rem : Nat) (msg : String)
    (hmsg : strIncludes msg "0x1771" = true) :
    (∀ s, (env (a+1)).statusResult = .error msg →
       EvmSolana.sendLoopGo env a (some s) bc (rem+1) = (.error .slippage, bc))
    ∧ ((env (a+1)).sendResult = .error msg →
       EvmSolana.sendLoopGo env a none bc (rem+1) = (.error .slippage, bc+1))
    ∧ (∀ lastError, (env (a+1)).sendResult = .error msg →
       Part003.sendLoopGo env a none lastError bc (rem+1) = (.error .slippage, bc+1)) := by
  refine ⟨fun s h => ?_, fun h => ?_, fun lastError h => ?_⟩
  · simp [EvmSolana.sendLoopGo, h, hmsg]
  · simp [EvmSolana.sendLoopGo, h, hmsg]
  · simp [Part003.sendLoopGo, h, hmsg]

/-- Witness for C4 with every call failing with the 0x1771 code. -/
theorem C4_slippage_fails_fast_witness :
    EvmSolana.sendLoopGo env0771 0 (some "s") 0 3 = (.error .slippage, 0) ∧
    EvmSolana.sendLoopGo env0771 0 none 0 3 = (.error .slippage, 1) ∧
    Part003.sendLoopGo env0771 0 none none 0 3 = (.error .slippage, 1) :=
  ⟨(C4_slippage_fails_fast env0771 0 0 2 "custom program error: 0x1771" (by decide)).1
      "s" (by decide),
   (C4_slippage_fails_fast env0771 0 0 2 "custom program error: 0x1771" (by decide)).2.1
      (by decide),
   (C4_slippage_fails_fast env0771 0 0 2 "custom program error: 0x1771" (by decide)).2.2
      none (by decide)⟩

/-- Claim C6: with a 2-attempt budget and every status check and
confirmation wait timing out without a terminal status, the evm-solana
`sendSolanaTransaction` run ends in the attempts-exhausted (`Timeout`) throw
with exactly 2 broadcast calls over the whole run. -/
theorem C6_two_attempt_budget_timeout (env : Nat → AttemptEnv)
    (h : ∀ t, 1 ≤ t → t ≤ 2 → attemptTimesOut (env t) = true) :
    EvmSolana.sendSolanaTransaction env 2 = (.error .attemptsExhausted, 2) :=
  EvmSolana.timeout_go env 2 0 0 none (Or.inl rfl) (fun t h1 h2 => h t h1 (by omega))

/-- Witness for C6 at a concrete all-timeout environment. -/
theorem C6_two_attempt_budget_timeout_witness :
    EvmSolana.sendSolanaTransaction envTimeout 2 = (.error .attemptsExhausted, 2) :=
  C6_two_attempt_budget_timeout envTimeout (fun _ _ _ => rfl)

/-- Claim C3 as amended: in swapSolanaKit's `sendAndConfirmTransaction`, a
freshness-anchor violation observed before any terminal status makes the
call fail with the `Transaction expired` outcome (its outcome type has no
timeout at all); the evm-solana `sendSolanaTransaction` variant instead
swallows the expiry rejection of every confirmation wait and ends in its
attempts-exhausted `Timeout` throw. -/
theorem C3_expired_vs_timeout_amended :
    (∀ (statuses : Nat → Option SigStatus) (lvbh : Nat) (sig : String) (k fuel : Nat),
       k < fuel →
       (∀ j, j < k → SwapSolanaKit.pollClass lvbh (statuses j) = .continueC) →
       SwapSolanaKit.pollClass lvbh (statuses k) = .expiredC →
       SwapSolanaKit.confirmLoopGo statuses lvbh sig 0 fuel = some .expired)
  ∧ (∀ (env : Nat → AttemptEnv) (maxAttempts : Nat),
       (∀ t, 1 ≤ t → t ≤ maxAttempts → attemptTimesOut (env t) = true) →
       EvmSolana.sendSolanaTransaction env maxAttempts =
         (.error .attemptsExhausted, maxAttempts)) := by
  constructor
  · intro statuses lvbh sig k fuel h1 h2 h3
    exact SwapSolanaKit.confirm_expired statuses lvbh sig k 0 fuel h1
      (fun j hj => by rw [Nat.zero_add]; exact h2 j hj)
      (by rwa [Nat.zero_add])
  · intro env maxAttempts h
    have := EvmSolana.timeout_go env maxAttempts 0 0 none (Or.inl rfl)
      (fun t h1 h2 => h t h1 (by omega))
    rwa [Nat.zero_add] at this

/-- Counterexample for C3 as stated: a submission on which every confirmation
wait rejects with the blockheight-exceeded expiry error (the freshness anchor
is observed invalid on every attempt, no terminal status ever appears) makes
evm-solana's `sendSolanaTransaction` fail with the attempts-exhausted
`Timeout` throw after its five attempts — not with any `Expired` outcome,
which its error type does not even contain. -/
theorem C3_evmSolana_expiry_ends_in_timeout :
    EvmSolana.sendSolanaTransaction envExpired = (.error .attemptsExhausted, 5) := by
  decide

/-- Witness for C3 at concrete inputs: the swapSolanaKit loop hits the expiry
throw on poll 1, and a 1-attempt evm-solana run with a lost confirmation race
ends in the attempts-exhausted throw. -/
theorem C3_expired_vs_timeout_amended_witness :
    SwapSolanaKit.confirmLoopGo expOracle 50 "sig" 0 3 = some .expired ∧
    EvmSolana.sendSolanaTransaction envTimeout 1 = (.error .attemptsExhausted, 1) :=
  ⟨C3_expired_vs_timeout_amended.1 expOracle 50 "sig" 1 3 (by omega)
      (fun j hj => by interval_cases j; decide) (by decide),
   C3_expired_vs_timeout_amended.2 envTimeout 1 (fun _ _ _ => rfl)⟩

/-- Claim C1: when the first broadcast succeeds and a later status poll (the
first terminal one, poll `k`) reports confirmed/finalized,
`sendAndConfirmTransaction` can return, and on every schedule on which it has
returned: the outcome is the first broadcast's signature, the abort flag was
raised and the resender coroutine had already terminated before the return
(the trace ends with the return event), and no further scheduling — hence no
broadcast — happens after the return: extending the schedule leaves the
state, including the trace, unchanged. -/
theorem C1_sendAndConfirm_returns_and_cancels
    (statuses : Nat → Option SigStatus) (lvbh : Nat) (sig : String) (k : Nat)
    (hpre : ∀ j, j < k → SwapSolanaKit.pollClass lvbh (statuses j) = .continueC)
    (hk : SwapSolanaKit.pollClass lvbh (statuses k) = .confirmedC) :
    (∃ sched, (SwapSolanaKit.run statuses lvbh sig sched SwapSolanaKit.init).main
        = .finished (.confirmed sig))
  ∧ ∀ (sched : List Bool) (o : SwapSolanaKit.SwapOutcome),
      (SwapSolanaKit.run statuses lvbh sig sched SwapSolanaKit.init).main = .finished o →
      o = .confirmed sig
      ∧ (SwapSolanaKit.run statuses lvbh sig sched SwapSolanaKit.init).res = .done
      ∧ (SwapSolanaKit.run statuses lvbh sig sched SwapSolanaKit.init).aborted = true
      ∧ (SwapSolanaKit.run statuses lvbh sig sched SwapSolanaKit.init).trace.getLast?
          = some .ret
      ∧ ∀ extra, SwapSolanaKit.run statuses lvbh sig (sched ++ extra) SwapSolanaKit.init
          = SwapSolanaKit.run statuses lvbh sig sched SwapSolanaKit.init := by
  have hInvInit : SwapSolanaKit.Inv sig k SwapSolanaKit.init := by
    refine ⟨fun o h => ?_, fun o h => ?_, fun j h => ?_⟩
    · exact absurd h (by simp [SwapSolanaKit.init])
    · rcases h with h | h <;> exact absurd h (by simp [SwapSolanaKit.init])
    · have : 0 = j := by simpa [SwapSolanaKit.init] using h
      omega
  constructor
  · refine ⟨List.replicate k true ++ [true, false, true], ?_⟩
    rw [SwapSolanaKit.run_append]
    rw [SwapSolanaKit.run_replicate_polls statuses lvbh sig k 0 SwapSolanaKit.init rfl
      (fun j h1 h2 => hpre j (by omega))]
    rw [show ({ SwapSolanaKit.init with main := .polling (0 + k) } : SwapSolanaKit.SysState)
        = ⟨.polling k, .idle, false, [.broadcast]⟩ from by rw [Nat.zero_add]; rfl]
    simp [SwapSolanaKit.run, SwapSolanaKit.stepMain, SwapSolanaKit.stepRes, hk]
  · intro sched o hrun
    obtain ⟨hA, hB, hC⟩ :=
      SwapSolanaKit.inv_run statuses lvbh sig k hpre hk sched SwapSolanaKit.init hInvInit
    obtain ⟨hdone, hlast⟩ := hA o hrun
    obtain ⟨hab, ho⟩ := hB o (Or.inr hrun)
    refine ⟨ho, hdone, hab, hlast, fun extra => ?_⟩
    rw [SwapSolanaKit.run_append]
    exact SwapSolanaKit.run_stuck statuses lvbh sig o extra _ hrun hdone

/-- Witness for C1: with a status oracle confirming on the very first poll
and the schedule main-resender-main, the call returns the signature, the
resender is done, the trace ends with the return, and extending the schedule
changes nothing. -/
theorem C1_sendAndConfirm_returns_and_cancels_witness :
    (SwapSolanaKit.run okOracle 0 "sig" [true, false, true] SwapSolanaKit.init).res = .done
  ∧ (SwapSolanaKit.run okOracle 0 "sig" [true, false, true] SwapSolanaKit.init).trace.getLast?
      = some .ret
  ∧ SwapSolanaKit.run okOracle 0 "sig" ([true, false, true] ++ [false, false])
      SwapSolanaKit.init
    = SwapSolanaKit.run okOracle 0 "sig" [true, false, true] SwapSolanaKit.init := by
  have h := C1_sendAndConfirm_returns_and_cancels okOracle 0 "sig" 0
    (fun j hj => absurd hj (by omega)) (by decide)
  obtain ⟨-, huniv⟩ := h
  obtain ⟨-, hdone, -, hlast, hstable⟩ :=
    huniv [true, false, true] (.confirmed "sig") (by decide)
  exact ⟨hdone, hlast, hstable [false, false]⟩
